import Mathlib

/-!
Shallow embedding of the live-preview subsystem of the claude-mermaid
repository (src/live-server.ts, src/routes.ts, src/file-utils.ts,
src/constants.ts), together with theorems settling the specification's
claims about it.

Conventions of the embedding:
* JavaScript `Map<string, DiagramState>` becomes an association list with
  JS `Map.set` semantics (`mapSet` replaces in place, else appends).
* JS `Set<WebSocket>` becomes a duplicate-free `List Nat` of connection
  handles kept in insertion order (`setAdd` appends when absent, matching
  `Set.prototype.add`; `Set.prototype.delete` becomes `List.erase`).
* File watchers (`fs.watch` handles) become numeric handles drawn from a
  counter `nextWatcher`; the set of not-yet-closed handles is
  `openWatchers`.  `watcher.close()` removes a handle from that set.
* The HTTP/file-system side effects are oracles passed as functions
  (`fsRead : String → Option String` models `readFile` resolving or
  rejecting), and handlers return an `HttpResponse` plus the list of
  paths they asked the file system for.
-/

namespace CMermaid

/-- constants.ts: `SERVER_PORT_START`. -/
def SERVER_PORT_START : Nat := 3737

/-- constants.ts: `SERVER_PORT_END`. -/
def SERVER_PORT_END : Nat := 3747

/-- constants.ts: `CSP_HEADER`. -/
def CSP_HEADER : String :=
  "default-src 'none'; script-src 'self'; style-src 'self' 'unsafe-inline'; img-src 'self' data:; connect-src 'self' ws://localhost:*"

/-- constants.ts: `WS_MESSAGES.RELOAD`. -/
def WS_RELOAD : String := "reload"

/-- The `ws` library's `WebSocket.OPEN` ready-state value. -/
def wsOPEN : Nat := 1

/-- file-utils.ts: the character class of `PREVIEW_ID_REGEX`
(`/^[a-zA-Z0-9_-]+$/`): ASCII letters, digits, underscore, hyphen. -/
def isPreviewIdChar (c : Char) : Bool :=
  c.isAlphanum || c = '_' || c = '-'

/-- file-utils.ts: `validatePreviewId` — throws unless the id is nonempty
and matches `PREVIEW_ID_REGEX`; modelled as `Except`. -/
def validatePreviewId (previewId : String) : Except String Unit :=
  if previewId = "" || !(previewId.data.all isPreviewIdChar) then
    .error "Invalid preview ID format. Only alphanumeric characters, hyphens, and underscores are allowed."
  else
    .ok ()

/-! ## JS `Map` and `Set` semantics -/

/-- `Map.get`: first binding of the key. -/
def mapFind {α : Type} : List (String × α) → String → Option α
  | [], _ => none
  | (k', v') :: rest, k => if k' = k then some v' else mapFind rest k

/-- `Map.set`: replace the existing binding in place, else append. -/
def mapSet {α : Type} : List (String × α) → String → α → List (String × α)
  | [], k, v => [(k, v)]
  | (k', v') :: rest, k, v =>
    if k' = k then (k, v) :: rest else (k', v') :: mapSet rest k v

/-- `Set.add`: append when absent (JS sets keep insertion order). -/
def setAdd (l : List Nat) (x : Nat) : List Nat :=
  if x ∈ l then l else l ++ [x]

theorem mapFind_mapSet_self {α : Type} (l : List (String × α)) (k : String) (v : α) :
    mapFind (mapSet l k v) k = some v := by
  induction l with
  | nil => simp [mapSet, mapFind]
  | cons p rest ih =>
    by_cases h : p.1 = k
    · simp [mapSet, h, mapFind]
    · simp [mapSet, h, mapFind, ih]

theorem mapFind_mem {α : Type} {l : List (String × α)} {k : String} {v : α}
    (h : mapFind l k = some v) : (k, v) ∈ l := by
  induction l with
  | nil => simp [mapFind] at h
  | cons p rest ih =>
    obtain ⟨k', v'⟩ := p
    by_cases hk : k' = k
    · simp [mapFind, hk] at h
      subst hk
      subst h
      exact List.mem_cons_self _ _
    · simp [mapFind, hk] at h
      exact List.mem_cons_of_mem _ (ih h)

/-! ## Data model (types.ts `DiagramState` and the module-level state of
live-server.ts: `diagrams`, plus watcher-handle bookkeeping) -/

/-- types.ts: `DiagramState` — watched file path, owning watcher handle,
set of connected live-viewer sockets. -/
structure DiagramState where
  filePath : String
  watcher : Nat
  clients : List Nat
deriving DecidableEq, Repr

/-- The mutable module state of live-server.ts that `addLiveDiagram`,
the WebSocket connection handler, `hasActiveConnections` and
`notifyClients` operate on: the `diagrams` map, together with the
watcher-handle allocator (`nextWatcher`) and the set of watcher handles
that have been created and not yet closed (`openWatchers`). -/
structure RegistryState where
  diagrams : List (String × DiagramState)
  nextWatcher : Nat
  openWatchers : List Nat
deriving DecidableEq, Repr

/-- Events emitted by `addLiveDiagram`, in program order: closing the
prior watcher, installing the new one. -/
inductive WatchEvent where
  | closed (w : Nat)
  | installed (w : Nat)
deriving DecidableEq, Repr

/-- live-server.ts `addLiveDiagram(diagramId, filePath)`:
keeps the existing client set when the id is already registered, closes
the prior watcher in that case, installs a fresh watcher on `filePath`,
and stores the new `DiagramState`.  All of this is synchronous in the
source (no `await` between the close and the install). -/
def addLiveDiagram (s : RegistryState) (diagramId filePath : String) :
    RegistryState × List WatchEvent :=
  let existingClients :=
    match mapFind s.diagrams diagramId with
    | some st => st.clients
    | none => []
  let closed :=
    match mapFind s.diagrams diagramId with
    | some st => [WatchEvent.closed st.watcher]
    | none => []
  let s1 : RegistryState :=
    match mapFind s.diagrams diagramId with
    | some st => { s with openWatchers := s.openWatchers.erase st.watcher }
    | none => s
  let w := s1.nextWatcher
  let s2 : RegistryState :=
    { s1 with
      nextWatcher := w + 1
      openWatchers := w :: s1.openWatchers
      diagrams := mapSet s1.diagrams diagramId ⟨filePath, w, existingClients⟩ }
  (s2, closed ++ [WatchEvent.installed w])

/-- live-server.ts `hasActiveConnections(diagramId)`:
`state ? state.clients.size > 0 : false`. -/
def hasActiveConnections (s : RegistryState) (diagramId : String) : Bool :=
  match mapFind s.diagrams diagramId with
  | some st => decide (st.clients.length > 0)
  | none => false

/-- Events of the WebSocket connection handler: a successful attach, or
the server closing the socket of an unknown session (`ws.close()`). -/
inductive ConnEvent where
  | attached (id : String) (ws : Nat)
  | closedByServer (ws : Nat)
deriving DecidableEq, Repr

/-- live-server.ts `wss.on("connection", ...)`:
`diagramId = req.url?.substring(1)`; when the id is truthy and
registered, the socket is added to that session's client set; otherwise
the server closes the socket at once. -/
def wsConnection (s : RegistryState) (url : String) (ws : Nat) :
    RegistryState × List ConnEvent :=
  let diagramId := url.drop 1
  if diagramId = "" then
    (s, [ConnEvent.closedByServer ws])
  else
    match mapFind s.diagrams diagramId with
    | some st =>
      ({ s with
         diagrams := mapSet s.diagrams diagramId
           { st with clients := setAdd st.clients ws } },
       [ConnEvent.attached diagramId ws])
    | none => (s, [ConnEvent.closedByServer ws])

/-- live-server.ts `ws.on("close", ...)`: `state.clients.delete(ws)`.
The closure mutates the (shared) client set of the session it attached
to. -/
def wsClose (s : RegistryState) (diagramId : String) (ws : Nat) : RegistryState :=
  match mapFind s.diagrams diagramId with
  | some st =>
    { s with
      diagrams := mapSet s.diagrams diagramId
        { st with clients := st.clients.erase ws } }
  | none => s

/-- The body of `state.clients.forEach` in `notifyClients`, run over the
clients in insertion order.  `readyState` gives each socket's transport
state and `sendOk c = false` models `client.send` throwing; a throw
propagates out of `forEach`, so iteration stops.  Returns the clients
that received the reload message and whether a send threw. -/
def sendAll (clients : List Nat) (readyState : Nat → Nat) (sendOk : Nat → Bool) :
    List Nat × Bool :=
  match clients with
  | [] => ([], false)
  | c :: cs =>
    if readyState c = wsOPEN then
      if sendOk c then
        let r := sendAll cs readyState sendOk
        (c :: r.1, r.2)
      else ([], true)
    else sendAll cs readyState sendOk

/-- live-server.ts `notifyClients(diagramId)`: no-op when the id is not
registered; otherwise sends `"reload"` to every client whose
`readyState` is `WebSocket.OPEN`, with no try/catch around
`client.send`.  Returns the (unchanged) state, the clients notified, and
whether a send threw. -/
def notifyClients (s : RegistryState) (diagramId : String)
    (readyState : Nat → Nat) (sendOk : Nat → Bool) :
    RegistryState × List Nat × Bool :=
  match mapFind s.diagrams diagramId with
  | none => (s, [], false)
  | some st =>
    let r := sendAll st.clients readyState sendOk
    (s, r.1, r.2)

/-- Well-formedness of the watcher bookkeeping: open handles are below
the allocator counter and duplicate-free, and every registered session's
watcher is a live (open, below-counter) handle. -/
def RegWf (s : RegistryState) : Prop :=
  (∀ w ∈ s.openWatchers, w < s.nextWatcher) ∧
  s.openWatchers.Nodup ∧
  (∀ p ∈ s.diagrams, p.2.watcher ∈ s.openWatchers)

instance (s : RegistryState) : Decidable (RegWf s) := by
  unfold RegWf
  infer_instance

/-! ## PortAllocator (live-server.ts `findAvailablePort`) -/

/-- The body of the `for (let port = startPort; port <= maxPort; port++)`
loop of `findAvailablePort`; `avail p` is the outcome of the transient
bind-and-release probe on port `p`.  The fuel argument counts the
remaining iterations, making the recursion structural. -/
def probeLoop (avail : Nat → Bool) (maxPort : Nat) : Nat → Nat → Option Nat
  | _, 0 => none
  | port, fuel + 1 =>
    if port ≤ maxPort then
      if avail port then some port else probeLoop avail maxPort (port + 1) fuel
    else none

/-- live-server.ts `findAvailablePort(startPort, maxPort)`: probes ports
in ascending order, returns the first that binds, and throws
(`none` here) when the whole range is exhausted. -/
def findAvailablePort (avail : Nat → Bool) (startPort maxPort : Nat) : Option Nat :=
  probeLoop avail maxPort startPort (maxPort + 1 - startPort)

theorem probeLoop_some {avail : Nat → Bool} {maxPort p : Nat} :
    ∀ {port fuel : Nat}, probeLoop avail maxPort port fuel = some p →
      port ≤ p ∧ p ≤ maxPort ∧ avail p = true ∧
        ∀ q, port ≤ q → q < p → avail q = false := by
  intro port fuel
  induction fuel generalizing port with
  | zero => intro h; simp [probeLoop] at h
  | succ fuel ih =>
    intro h
    rw [probeLoop] at h
    by_cases hle : port ≤ maxPort
    · rw [if_pos hle] at h
      by_cases hav : avail port
      · rw [if_pos hav] at h
        cases h
        exact ⟨Nat.le_refl _, hle, hav, fun q hq1 hq2 => absurd (Nat.lt_of_le_of_lt hq1 hq2) (Nat.lt_irrefl _)⟩
      · rw [if_neg hav] at h
        obtain ⟨h1, h2, h3, h4⟩ := ih h
        refine ⟨Nat.le_trans (Nat.le_succ _) h1, h2, h3, fun q hq1 hq2 => ?_⟩
        rcases Nat.eq_or_lt_of_le hq1 with heq | hlt
        · subst heq
          exact Bool.eq_false_iff.mpr (fun hc => hav hc)
        · exact h4 q hlt hq2
    · rw [if_neg hle] at h
      cases h

theorem probeLoop_none {avail : Nat → Bool} {maxPort : Nat} :
    ∀ {port fuel : Nat}, (∀ q, port ≤ q → q ≤ maxPort → avail q = false) →
      probeLoop avail maxPort port fuel = none := by
  intro port fuel
  induction fuel generalizing port with
  | zero => intro _; rfl
  | succ fuel ih =>
    intro h
    rw [probeLoop]
    by_cases hle : port ≤ maxPort
    · rw [if_pos hle, h port (Nat.le_refl _) hle]
      simp only [Bool.false_eq_true, if_false]
      exact ih (fun q hq1 hq2 => h q (Nat.le_trans (Nat.le_succ _) hq1) hq2)
    · rw [if_neg hle]

/-- C7: `findAvailablePort(low, high)` returns the first (ascending)
port of the inclusive range `[low, high]` whose transient bind probe
succeeds, so any returned port lies in the range; when every port of
the range fails to bind it fails with the no-ports error instead of
returning a value. -/
theorem findAvailablePort_first_in_range :
    (∀ (avail : Nat → Bool) (low high p : Nat),
       findAvailablePort avail low high = some p →
       low ≤ p ∧ p ≤ high ∧ avail p = true ∧
         ∀ q, low ≤ q → q < p → avail q = false) ∧
    (∀ (avail : Nat → Bool) (low high : Nat),
       (∀ q, low ≤ q → q ≤ high → avail q = false) →
       findAvailablePort avail low high = none) := by
  constructor
  · intro avail low high p h
    exact probeLoop_some h
  · intro avail low high h
    exact probeLoop_none h

/-- C7 witness: on the default range `3737..3747` with every bind probe
failing, `findAvailablePort` reports failure rather than a port. -/
theorem findAvailablePort_first_in_range_witness :
    findAvailablePort (fun _ => false) SERVER_PORT_START SERVER_PORT_END = none :=
  findAvailablePort_first_in_range.2 (fun _ => false) SERVER_PORT_START SERVER_PORT_END
    (fun _ _ _ => rfl)

/-! ## SessionRegistry claims -/

/-- C2: re-registering an already-registered session id closes the
watcher of the prior registration before the new watcher is installed
(the emitted event order), keeps the very same client set in the new
`DiagramState`, and afterwards the old watcher is no longer open while
the newly installed one is — at most one active watcher per session. -/
theorem addLiveDiagram_reregistration (s : RegistryState) (st : DiagramState)
    (id fp : String) (hwf : RegWf s)
    (hreg : mapFind s.diagrams id = some st) :
    (addLiveDiagram s id fp).2 =
      [WatchEvent.closed st.watcher, WatchEvent.installed s.nextWatcher] ∧
    mapFind (addLiveDiagram s id fp).1.diagrams id =
      some ⟨fp, s.nextWatcher, st.clients⟩ ∧
    st.watcher ∉ (addLiveDiagram s id fp).1.openWatchers ∧
    s.nextWatcher ∈ (addLiveDiagram s id fp).1.openWatchers := by
  obtain ⟨hbound, hnodup, hlive⟩ := hwf
  have hmem : st.watcher ∈ s.openWatchers := hlive (id, st) (mapFind_mem hreg)
  have hlt : st.watcher < s.nextWatcher := hbound _ hmem
  refine ⟨?_, ?_, ?_, ?_⟩
  · simp [addLiveDiagram, hreg]
  · simp [addLiveDiagram, hreg, mapFind_mapSet_self]
  · simp only [addLiveDiagram, hreg]
    intro hin
    rcases List.mem_cons.mp hin with heq | hin'
    · exact absurd heq (Nat.ne_of_lt hlt)
    · exact (List.Nodup.not_mem_erase hnodup) hin'
  · simp [addLiveDiagram, hreg]

/-- A session state used by concrete witnesses: one attached viewer. -/
def stA : DiagramState := ⟨"/tmp/a.svg", 0, [7]⟩

/-- A registry holding `stA` under id `"a"`, watcher 0 open. -/
def regA : RegistryState := ⟨[("a", stA)], 1, [0]⟩

/-- C2 witness: re-registering `"a"` in `regA` closes watcher 0 before
installing watcher 1 and keeps viewer 7 attached. -/
theorem addLiveDiagram_reregistration_witness :
    (addLiveDiagram regA "a" "/tmp/b.svg").2 =
      [WatchEvent.closed stA.watcher, WatchEvent.installed regA.nextWatcher] ∧
    mapFind (addLiveDiagram regA "a" "/tmp/b.svg").1.diagrams "a" =
      some ⟨"/tmp/b.svg", regA.nextWatcher, stA.clients⟩ ∧
    stA.watcher ∉ (addLiveDiagram regA "a" "/tmp/b.svg").1.openWatchers ∧
    regA.nextWatcher ∈ (addLiveDiagram regA "a" "/tmp/b.svg").1.openWatchers :=
  addLiveDiagram_reregistration regA stA "a" "/tmp/b.svg" (by decide) (by decide)

/-! ## ViewerConnectionManager claims -/

/-- C8: attaching a viewer to a registered session with no attached
viewers and then firing that connection's close event leaves
`hasActiveConnections` false again; and a connection arriving for an
id that is not registered (or empty) is closed by the server at once
with the registry left untouched, so it is never retained in any
session's set. -/
theorem wsConnection_attach_detach_roundtrip :
    (∀ (s : RegistryState) (st : DiagramState) (url id : String) (ws : Nat),
       url.drop 1 = id → id ≠ "" →
       mapFind s.diagrams id = some st → st.clients = [] →
       hasActiveConnections (wsClose (wsConnection s url ws).1 id ws) id = false) ∧
    (∀ (s : RegistryState) (url : String) (ws : Nat),
       url.drop 1 = "" ∨ mapFind s.diagrams (url.drop 1) = none →
       wsConnection s url ws = (s, [ConnEvent.closedByServer ws])) := by
  constructor
  · intro s st url id ws hurl hne hreg hcl
    simp only [wsConnection, hurl, hne, if_false, hreg, hcl, setAdd,
      List.not_mem_nil, if_neg (fun h => h), List.nil_append]
    simp only [wsClose, mapFind_mapSet_self, List.erase_cons_head, List.erase_nil]
    simp [hasActiveConnections, mapFind_mapSet_self]
  · intro s url ws h
    rcases h with h | h
    · simp [wsConnection, h]
    · by_cases hd : url.drop 1 = ""
      · simp [wsConnection, hd]
      · simp [wsConnection, hd, h]

/-- A session with no attached viewers, used by concrete witnesses. -/
def stE : DiagramState := ⟨"/tmp/e.svg", 0, []⟩

/-- A registry holding `stE` under id `"e"`, watcher 0 open. -/
def regE : RegistryState := ⟨[("e", stE)], 1, [0]⟩

/-- C8 witness: in `regE`, attaching socket 5 to `"e"` and closing it
leaves no active connections, and socket 5 connecting for the
unregistered id `"zz"` is closed by the server with the state
unchanged. -/
theorem wsConnection_attach_detach_roundtrip_witness :
    hasActiveConnections (wsClose (wsConnection regE "/e" 5).1 "e" 5) "e" = false ∧
    wsConnection regE "/zz" 5 = (regE, [ConnEvent.closedByServer 5]) :=
  ⟨wsConnection_attach_detach_roundtrip.1 regE stE "/e" "e" 5 (by decide) (by decide)
      (by decide) rfl,
   wsConnection_attach_detach_roundtrip.2 regE "/zz" 5 (Or.inr (by decide))⟩

/-! ## NotificationFanout claims -/

theorem sendAll_all_ok (clients : List Nat) (readyState : Nat → Nat)
    (sendOk : Nat → Bool) (h : ∀ c ∈ clients, sendOk c = true) :
    sendAll clients readyState sendOk =
      (clients.filter (fun c => decide (readyState c = wsOPEN)), false) := by
  induction clients with
  | nil => simp [sendAll]
  | cons c cs ih =>
    have hc := h c (List.mem_cons_self _ _)
    have ih' := ih (fun x hx => h x (List.mem_cons_of_mem _ hx))
    by_cases ho : readyState c = wsOPEN
    · simp [sendAll, ho, hc, ih', List.filter_cons]
    · simp [sendAll, ho, ih', List.filter_cons]

theorem sendAll_abort (l1 : List Nat) (c : Nat) (l2 : List Nat)
    (readyState : Nat → Nat) (sendOk : Nat → Bool)
    (h1 : ∀ x ∈ l1, sendOk x = true)
    (hc : readyState c = wsOPEN) (hok : sendOk c = false) :
    sendAll (l1 ++ c :: l2) readyState sendOk =
      (l1.filter (fun x => decide (readyState x = wsOPEN)), true) := by
  induction l1 with
  | nil => simp [sendAll, hc, hok]
  | cons a as ih =>
    have ha := h1 a (List.mem_cons_self _ _)
    have ih' := ih (fun x hx => h1 x (List.mem_cons_of_mem _ hx))
    by_cases ho : readyState a = wsOPEN
    · simp [sendAll, ho, ha, ih', List.filter_cons]
    · simp [sendAll, ho, ih', List.filter_cons]

/-- C5 (amended): when no send throws, `notifyClients` delivers exactly
one reload to each client whose transport is `OPEN`, in order, skipping
the rest without error; but a send that throws on an `OPEN` client
aborts the `forEach`, so only the open clients strictly before the
failing one are notified and the error propagates — per-connection
failures are not isolated. -/
theorem notifyClients_fanout :
    (∀ (s : RegistryState) (id : String) (st : DiagramState)
       (readyState : Nat → Nat) (sendOk : Nat → Bool),
       mapFind s.diagrams id = some st →
       (∀ c ∈ st.clients, sendOk c = true) →
       notifyClients s id readyState sendOk =
         (s, st.clients.filter (fun c => decide (readyState c = wsOPEN)), false)) ∧
    (∀ (s : RegistryState) (id : String) (st : DiagramState)
       (readyState : Nat → Nat) (sendOk : Nat → Bool) (l1 : List Nat) (c : Nat)
       (l2 : List Nat),
       mapFind s.diagrams id = some st →
       st.clients = l1 ++ c :: l2 →
       (∀ x ∈ l1, sendOk x = true) →
       readyState c = wsOPEN → sendOk c = false →
       notifyClients s id readyState sendOk =
         (s, l1.filter (fun x => decide (readyState x = wsOPEN)), true)) := by
  constructor
  · intro s id st readyState sendOk hreg hok
    simp [notifyClients, hreg, sendAll_all_ok st.clients readyState sendOk hok]
  · intro s id st readyState sendOk l1 c l2 hreg hcl h1 hc hok
    simp [notifyClients, hreg, hcl, sendAll_abort l1 c l2 readyState sendOk h1 hc hok]

/-- A session with three attached viewers 1, 2, 3. -/
def stN : DiagramState := ⟨"/tmp/n.svg", 0, [1, 2, 3]⟩

/-- A registry holding `stN` under id `"n"`, watcher 0 open. -/
def regN : RegistryState := ⟨[("n", stN)], 1, [0]⟩

/-- C5 counterexample: three open connections on session `"n"` where
connection 1's send throws — connections 2 and 3 receive nothing (the
notified list is empty and the error propagates), refuting the claim
that a send failure does not prevent the remaining connections from
receiving the reload. -/
theorem notifyClients_failure_not_isolated :
    notifyClients regN "n" (fun _ => wsOPEN) (fun c => c != 1) = (regN, [], true) ∧
    2 ∈ stN.clients ∧ 3 ∈ stN.clients := by
  decide

/-- C5 witness: on session `"n"`, with every send succeeding all three
open clients are notified exactly once in order; with client 1's send
throwing, the fanout aborts before clients 2 and 3. -/
theorem notifyClients_fanout_witness :
    notifyClients regN "n" (fun _ => wsOPEN) (fun _ => true) = (regN, [1, 2, 3], false) ∧
    notifyClients regN "n" (fun _ => wsOPEN) (fun c => c == 5) = (regN, [], true) := by
  constructor
  · have h := notifyClients_fanout.1 regN "n" stN (fun _ => wsOPEN) (fun _ => true)
      (by decide) (fun c _ => rfl)
    simpa using h
  · have h := notifyClients_fanout.2 regN "n" stN (fun _ => wsOPEN) (fun c => c == 5)
      [] 1 [2, 3] (by decide) rfl (by simp) rfl rfl
    simpa using h

/-- C10: invoking `notifyClients` for an id with no registered session
is a silent no-op — no reload message is sent, no error is raised, and
the registry state is returned unchanged. -/
theorem notifyClients_unregistered_noop (s : RegistryState) (id : String)
    (readyState : Nat → Nat) (sendOk : Nat → Bool)
    (h : mapFind s.diagrams id = none) :
    notifyClients s id readyState sendOk = (s, [], false) := by
  simp [notifyClients, h]

/-- C10 witness: notifying the unregistered id `"nope"` in `regN`
changes nothing and sends nothing. -/
theorem notifyClients_unregistered_noop_witness :
    notifyClients regN "nope" (fun _ => wsOPEN) (fun _ => true) = (regN, [], false) :=
  notifyClients_unregistered_noop regN "nope" (fun _ => wsOPEN) (fun _ => true) (by decide)

/-! ## ServerLifecycle (live-server.ts `ensureLiveServer`)

`ensureLiveServer` runs on the single-threaded event loop, but it
contains two suspension points: `await findAvailablePort()` (line 198)
and the `await` on the `listen` promise (line 291).  A concurrent caller
can run between the suspension points.  The function is cut into its
atomic segments below, and a scheduler interleaves two callers. -/

/-- The module-level server singleton state of live-server.ts:
`liveServer` (handle of the created `http.Server`, numbered by a
creation counter), `liveServerPort`, how many server instances
`createServer` has produced, and the ports actually bound by `listen`. -/
structure SrvState where
  liveServer : Option Nat
  liveServerPort : Option Nat
  created : Nat
  bound : List Nat
deriving DecidableEq, Repr

/-- Where one caller of `ensureLiveServer` stands: at entry; suspended
at `await findAvailablePort()`; suspended at the `listen` await (having
already run `createServer`); returned with a port; or failed because no
port was available. -/
inductive TaskPhase where
  | entry
  | portPending
  | listenPending (port : Nat)
  | done (ret : Nat)
  | failed
deriving DecidableEq, Repr

/-- One atomic segment of `ensureLiveServer` (code between suspension
points, which the event loop runs without preemption):
* from entry: `if (liveServer && liveServerPort) return liveServerPort;`
  else suspend at `await findAvailablePort()`;
* resuming from the port await: the chosen port is the first of
  `3737..3747` not yet bound; then `liveServer = createServer(...)`
  (one more instance created) and suspension at the listen await;
* resuming from the listen await: the port is bound,
  `liveServerPort = port`, and the caller returns the port. -/
def ensureLiveServerStep (g : SrvState) : TaskPhase → SrvState × TaskPhase
  | .entry =>
    match g.liveServer, g.liveServerPort with
    | some _, some p => (g, .done p)
    | _, _ => (g, .portPending)
  | .portPending =>
    match findAvailablePort (fun q => !(g.bound.contains q))
        SERVER_PORT_START SERVER_PORT_END with
    | none => (g, .failed)
    | some port =>
      ({ g with liveServer := some g.created, created := g.created + 1 },
       .listenPending port)
  | .listenPending port =>
    ({ g with bound := port :: g.bound, liveServerPort := some port }, .done port)
  | ph => (g, ph)

/-- Two concurrent callers of `ensureLiveServer` and the shared module
state. -/
structure TwoCallers where
  g : SrvState
  t0 : TaskPhase
  t1 : TaskPhase
deriving DecidableEq, Repr

/-- The event loop runs one ready segment of the chosen caller
(`false` = caller 0, `true` = caller 1). -/
def schedStep (st : TwoCallers) (pick : Bool) : TwoCallers :=
  if pick then
    let r := ensureLiveServerStep st.g st.t1
    { st with g := r.1, t1 := r.2 }
  else
    let r := ensureLiveServerStep st.g st.t0
    { st with g := r.1, t0 := r.2 }

/-- Run a schedule of segment choices. -/
def runSched (st : TwoCallers) : List Bool → TwoCallers
  | [] => st
  | pick :: rest => runSched (schedStep st pick) rest

/-- Both callers start at entry with no server running. -/
def initialCallers : TwoCallers := ⟨⟨none, none, 0, []⟩, .entry, .entry⟩

/-- C1 is violated: under the schedule where both callers execute the
`liveServer` null-check before either's `await findAvailablePort()`
resolves (a legal event-loop interleaving, since that check and the
`liveServer = createServer(...)` write are separated by the await),
`createServer` runs twice — two HTTP server instances — and the two
callers return the different ports 3737 and 3738. -/
theorem ensureLiveServer_concurrent_double_create :
    (runSched initialCallers [false, true, false, false, true, true]).g.created = 2 ∧
    (runSched initialCallers [false, true, false, false, true, true]).t0 =
      TaskPhase.done 3737 ∧
    (runSched initialCallers [false, true, false, false, true, true]).t1 =
      TaskPhase.done 3738 := by
  decide

/-! ## HTTP view handlers (live-server.ts `handleViewRequest`,
`handleLivePreviewRequest`)

File I/O is an oracle: `fsRead p` is the result of `readFile(p)`
(`none` = rejected), `fsOptions p` the parsed result of reading the
options JSON at `p`.  The HTML produced by `createLiveHtmlWrapper`
(template substitution) is abstracted: the body carries the raw
content, which the claims never inspect beyond identity. -/

/-- file-utils.ts `DiagramOptions` (the fields the handlers use). -/
structure DiagramOptions where
  theme : String
  background : String
deriving DecidableEq, Repr

/-- constants.ts `DEFAULT_DIAGRAM_OPTIONS` (relevant fields). -/
def DEFAULT_DIAGRAM_OPTIONS : DiagramOptions := ⟨"default", "white"⟩

/-- An HTTP response as the handlers produce it with `writeHead`/`end`. -/
structure HttpResponse where
  status : Nat
  headers : List (String × String)
  body : String
deriving DecidableEq, Repr

/-- `res.getHeader`-style lookup on the written headers. -/
def headerValue (r : HttpResponse) (name : String) : Option String :=
  List.lookup name r.headers

/-- `s` contains `sub` as a substring. -/
def strHasSub (s sub : String) : Prop := ∃ a b, s = a ++ (sub ++ b)

/-- Node `path.join(a, b, c)` before `..`-normalization (normalization
only moves a `..`-bearing path further out of the base directory). -/
def pathJoin (a b c : String) : String := a ++ "/" ++ b ++ "/" ++ c

/-- file-utils.ts `loadDiagramOptions(previewId)`: the path helpers it
uses (`getDiagramOptionsPath` → `getPreviewDir`) call
`validatePreviewId` first, so an invalid id makes the promise reject
(`none`); otherwise the options file under the live directory is read. -/
def loadDiagramOptions (liveDir previewId : String)
    (fsOptions : String → Option DiagramOptions) : Option DiagramOptions :=
  match validatePreviewId previewId with
  | .error _ => none
  | .ok _ => fsOptions (pathJoin liveDir previewId "options.json")

/-- live-server.ts `handleViewRequest(url, res, port)`:
`diagramId = url.substring(6)` and
`filePath = join(getLiveDir(), diagramId, "diagram.svg")` with **no**
validation of `diagramId`; reads the file and the options
(`.catch(() => DEFAULT_DIAGRAM_OPTIONS)`), answering 200 with
`CSP_HEADER` on success and 404 on a failed read.  Returns the response
and the paths handed to the file system. -/
def handleViewRequest (liveDir url : String) (port : Nat)
    (fsRead : String → Option String)
    (fsOptions : String → Option DiagramOptions) : HttpResponse × List String :=
  let diagramId := url.drop 6
  let filePath := pathJoin liveDir diagramId "diagram.svg"
  let optionsPath := pathJoin liveDir diagramId "options.json"
  match fsRead filePath with
  | some content =>
    let _options := (loadDiagramOptions liveDir diagramId fsOptions).getD
      DEFAULT_DIAGRAM_OPTIONS
    ({ status := 200
       headers := [("Content-Type", "text/html"),
                   ("Content-Security-Policy", CSP_HEADER)]
       body := content },
     [filePath, optionsPath])
  | none =>
    ({ status := 404
       headers := [("Content-Type", "text/plain")]
       body := "Diagram not found" },
     [filePath, optionsPath])

/-- live-server.ts `handleLivePreviewRequest(url, res, port)`:
`diagramId = url.substring(1)`; 404 when the id is empty or not in the
`diagrams` map; otherwise reads the registered `state.filePath` and the
options (uncaught here), answering 200 with `CSP_HEADER` on success and
500 when either read fails. -/
def handleLivePreviewRequest (liveDir : String)
    (diagrams : List (String × DiagramState)) (url : String) (port : Nat)
    (fsRead : String → Option String)
    (fsOptions : String → Option DiagramOptions) : HttpResponse :=
  let diagramId := url.drop 1
  if diagramId = "" then
    { status := 404, headers := [("Content-Type", "text/plain")]
      body := "Diagram not found" }
  else
    match mapFind diagrams diagramId with
    | none =>
      { status := 404, headers := [("Content-Type", "text/plain")]
        body := "Diagram not found" }
    | some st =>
      match fsRead st.filePath, loadDiagramOptions liveDir diagramId fsOptions with
      | some content, some _options =>
        { status := 200
          headers := [("Content-Type", "text/html"),
                      ("Content-Security-Policy", CSP_HEADER)]
          body := content }
      | _, _ =>
        { status := 500, headers := [("Content-Type", "text/plain")]
          body := "Error reading diagram" }

/-- Whether `validatePreviewId` accepted. -/
def acceptsId (r : Except String Unit) : Bool :=
  match r with
  | .ok _ => true
  | .error _ => false

theorem handleViewRequest_status_shape (liveDir url : String) (port : Nat)
    (fsRead : String → Option String) (fsOptions : String → Option DiagramOptions) :
    (handleViewRequest liveDir url port fsRead fsOptions).1.status = 404 ∨
      ((handleViewRequest liveDir url port fsRead fsOptions).1.status = 200 ∧
       headerValue (handleViewRequest liveDir url port fsRead fsOptions).1
         "Content-Security-Policy" = some CSP_HEADER) := by
  simp only [handleViewRequest]
  split
  · exact Or.inr ⟨rfl, rfl⟩
  · exact Or.inl rfl

theorem handleLivePreviewRequest_status_shape (liveDir : String)
    (diagrams : List (String × DiagramState)) (url : String) (port : Nat)
    (fsRead : String → Option String) (fsOptions : String → Option DiagramOptions) :
    (handleLivePreviewRequest liveDir diagrams url port fsRead fsOptions).status = 404 ∨
      (handleLivePreviewRequest liveDir diagrams url port fsRead fsOptions).status = 500 ∨
      ((handleLivePreviewRequest liveDir diagrams url port fsRead fsOptions).status = 200 ∧
       headerValue (handleLivePreviewRequest liveDir diagrams url port fsRead fsOptions)
         "Content-Security-Policy" = some CSP_HEADER) := by
  simp only [handleLivePreviewRequest]
  split
  · exact Or.inl rfl
  · split
    · exact Or.inl rfl
    · split
      · exact Or.inr (Or.inr ⟨rfl, rfl⟩)
      · exact Or.inr (Or.inl rfl)

/-- C9: every 200 response of the static-view route `/view/{id}` and of
the live-preview fallback `/{id}` carries the Content-Security-Policy
header with value `CSP_HEADER`, which contains `default-src 'none'` and
`connect-src 'self' ws://localhost:*`. -/
theorem html_responses_carry_csp :
    (∀ (liveDir url : String) (port : Nat) (fsRead : String → Option String)
       (fsOptions : String → Option DiagramOptions),
       (handleViewRequest liveDir url port fsRead fsOptions).1.status = 200 →
       headerValue (handleViewRequest liveDir url port fsRead fsOptions).1
         "Content-Security-Policy" = some CSP_HEADER) ∧
    (∀ (liveDir : String) (diagrams : List (String × DiagramState))
       (url : String) (port : Nat) (fsRead : String → Option String)
       (fsOptions : String → Option DiagramOptions),
       (handleLivePreviewRequest liveDir diagrams url port fsRead fsOptions).status
           = 200 →
       headerValue (handleLivePreviewRequest liveDir diagrams url port fsRead fsOptions)
         "Content-Security-Policy" = some CSP_HEADER) ∧
    strHasSub CSP_HEADER "default-src 'none'" ∧
    strHasSub CSP_HEADER "connect-src 'self' ws://localhost:*" := by
  refine ⟨?_, ?_, ?_, ?_⟩
  · intro liveDir url port fsRead fsOptions h
    rcases handleViewRequest_status_shape liveDir url port fsRead fsOptions with h4 | ⟨_, hc⟩
    · rw [h4] at h; cases h
    · exact hc
  · intro liveDir diagrams url port fsRead fsOptions h
    rcases handleLivePreviewRequest_status_shape liveDir diagrams url port fsRead fsOptions
      with h4 | h5 | ⟨_, hc⟩
    · rw [h4] at h; cases h
    · rw [h5] at h; cases h
    · exact hc
  · exact ⟨"", "; script-src 'self'; style-src 'self' 'unsafe-inline'; img-src 'self' data:; connect-src 'self' ws://localhost:*", rfl⟩
  · exact ⟨"default-src 'none'; script-src 'self'; style-src 'self' 'unsafe-inline'; img-src 'self' data:; ", "", rfl⟩

/-- C9 witness: concrete 200 responses of both routes carry the CSP
header. -/
theorem html_responses_carry_csp_witness :
    headerValue (handleViewRequest "/live" "/view/ok" 3737 (fun _ => some "<svg/>")
        (fun _ => none)).1 "Content-Security-Policy" = some CSP_HEADER ∧
    headerValue (handleLivePreviewRequest "/live" regN.diagrams "/n" 3737
        (fun _ => some "<svg/>") (fun _ => some ⟨"default", "white"⟩))
      "Content-Security-Policy" = some CSP_HEADER :=
  ⟨html_responses_carry_csp.1 "/live" "/view/ok" 3737 (fun _ => some "<svg/>")
      (fun _ => none) rfl,
   html_responses_carry_csp.2.1 "/live" regN.diagrams "/n" 3737
      (fun _ => some "<svg/>") (fun _ => some ⟨"default", "white"⟩) rfl⟩

/-- The live directory used by the traversal scenario. -/
def trLiveDir : String := "/home/user/.config/claude-mermaid/live"

/-- A raw request URL whose id segment is a traversal payload. -/
def trUrl : String := "/view/../../etc/passwd"

/-- A file system holding a file outside the live directory at the
path the handler computes from the traversal id. -/
def trFs : String → Option String := fun p =>
  if p = "/home/user/.config/claude-mermaid/live/../../etc/passwd/diagram.svg" then
    some "root:x:0:0"
  else none

/-- C3 is violated by the `/view/{id}` route: for the request URL
`/view/../../etc/passwd` the extracted id fails `validatePreviewId`,
yet `handleViewRequest` builds the filesystem path from it, asks the
file system for a path containing `..` that escapes the live directory,
serves that outside file's contents with 200, and never answers 400. -/
theorem handleViewRequest_path_traversal :
    acceptsId (validatePreviewId (trUrl.drop 6)) = false ∧
    (handleViewRequest trLiveDir trUrl 3737 trFs (fun _ => none)).2.head? =
      some "/home/user/.config/claude-mermaid/live/../../etc/passwd/diagram.svg" ∧
    (handleViewRequest trLiveDir trUrl 3737 trFs (fun _ => none)).1.status = 200 ∧
    (handleViewRequest trLiveDir trUrl 3737 trFs (fun _ => none)).1.status ≠ 400 ∧
    (handleViewRequest trLiveDir trUrl 3737 trFs (fun _ => none)).1.body = "root:x:0:0" :=
  ⟨rfl, rfl, rfl, by decide, rfl⟩

/-- C4 counterexample: `addLiveDiagram` called with the id `".."`,
which `validatePreviewId` rejects, does not fail — it registers the
session and installs a live watcher (handle 0 open afterwards). -/
theorem addLiveDiagram_accepts_invalid_id :
    acceptsId (validatePreviewId "..") = false ∧
    mapFind (addLiveDiagram ⟨[], 0, []⟩ ".." "/tmp/x.svg").1.diagrams ".." =
      some ⟨"/tmp/x.svg", 0, []⟩ ∧
    0 ∈ (addLiveDiagram ⟨[], 0, []⟩ ".." "/tmp/x.svg").1.openWatchers :=
  ⟨rfl, by decide, by decide⟩

/-- C4 (amended): `addLiveDiagram` itself performs no id validation —
for every id, valid or not, registration succeeds and the entry for
that id exists afterwards with the given file path; the charset policy
is enforced by `validatePreviewId` inside the path helpers callers use
to derive `filePath`, not by the registration operation. -/
theorem addLiveDiagram_never_validates (s : RegistryState) (id fp : String) :
    ∃ st : DiagramState,
      mapFind (addLiveDiagram s id fp).1.diagrams id = some st ∧
      st.filePath = fp ∧
      st.watcher ∈ (addLiveDiagram s id fp).1.openWatchers := by
  cases hreg : mapFind s.diagrams id with
  | some st0 =>
    refine ⟨⟨fp, s.nextWatcher, st0.clients⟩, ?_, rfl, ?_⟩
    · simp [addLiveDiagram, hreg, mapFind_mapSet_self]
    · simp [addLiveDiagram, hreg]
  | none =>
    refine ⟨⟨fp, s.nextWatcher, []⟩, ?_, rfl, ?_⟩
    · simp [addLiveDiagram, hreg, mapFind_mapSet_self]
    · simp [addLiveDiagram, hreg]

/-! ## Router (routes.ts `ROUTE_CONFIG`/`matchRoute` and the request
dispatch order of the `createServer` handler in `ensureLiveServer`)

URLs are `List Char` so that prefix matching can be reasoned about for
arbitrary id suffixes. -/

/-- JS `String.prototype.startsWith(pat)` on character lists
(`startsWithL pat s`). -/
def startsWithL : List Char → List Char → Bool
  | [], _ => true
  | _ :: _, [] => false
  | p :: ps, c :: cs => if p = c then startsWithL ps cs else false

/-- Which handler a request is dispatched to (routes.ts handlers, the
legacy asset/view handlers of live-server.ts, and the live-preview
fallback). -/
inductive HandlerTag where
  | gallery | apiDiagramDelete | sharedCss | galleryCss | galleryJs
  | style | script | mermaidLive | faviconSvg | faviconIco | view | livePreview
deriving DecidableEq, Repr

/-- routes.ts `Route`: path, exact flag, handler. -/
structure Route where
  path : List Char
  exact : Bool
  handler : HandlerTag
deriving DecidableEq, Repr

/-- The matching test of routes.ts `matchRoute`: `url === route.path`
when exact, `url.startsWith(route.path)` otherwise. -/
def routeMatches (r : Route) (url : List Char) : Bool :=
  if r.exact then (if url = r.path then true else false) else startsWithL r.path url

/-- routes.ts `ROUTE_CONFIG` (paths from constants.ts `ROUTES`), in
declaration order. -/
def ROUTE_CONFIG : List Route :=
  [⟨"/".data, true, .gallery⟩,
   ⟨"/api/diagrams".data, false, .apiDiagramDelete⟩,
   ⟨"/shared.css".data, true, .sharedCss⟩,
   ⟨"/gallery.css".data, true, .galleryCss⟩,
   ⟨"/gallery.js".data, true, .galleryJs⟩]

/-- routes.ts `matchRoute(url)`: first configured route that matches. -/
def matchRoute (url : List Char) : Option Route :=
  ROUTE_CONFIG.find? (fun r => routeMatches r url)

/-- The request handler installed by `ensureLiveServer`
(live-server.ts lines 201-255): `matchRoute` first, then the legacy
exact matches `/style.css`, `/script.js`, the `/mermaid-live/` prefix,
the favicons, the `/view/` prefix, and finally the live-preview
fallback. -/
def dispatch (url : List Char) : HandlerTag :=
  match matchRoute url with
  | some r => r.handler
  | none =>
    if url = "/style.css".data then .style
    else if url = "/script.js".data then .script
    else if startsWithL "/mermaid-live/".data url then .mermaidLive
    else if url = "/favicon.svg".data then .faviconSvg
    else if url = "/favicon.ico".data then .faviconIco
    else if startsWithL "/view/".data url then .view
    else .livePreview

theorem startsWithL_self_append (p rest : List Char) :
    startsWithL p (p ++ rest) = true := by
  induction p with
  | nil => rfl
  | cons a as ih => simp [startsWithL, ih]

/-- Sessions literally named `"view"` and `"api"`. -/
def regV : RegistryState :=
  ⟨[("view", ⟨"/tmp/v.svg", 0, []⟩), ("api", ⟨"/tmp/api.svg", 1, []⟩)], 2, [0, 1]⟩

/-- C6 counterexample: the request paths `/view` and `/api` match no
reserved route (the reserved matchers are the prefix `/view/` and the
prefix `/api/diagrams`), so both are dispatched to the live-preview
fallback, and sessions literally named `"view"` and `"api"` are served
by it with 200 — contradicting the claim that no request path reaches
the fallback for those session names. -/
theorem reserved_names_reachable_via_fallback :
    dispatch "/view".data = HandlerTag.livePreview ∧
    dispatch "/api".data = HandlerTag.livePreview ∧
    (handleLivePreviewRequest "/live" regV.diagrams "/view" 3737
        (fun _ => some "<svg/>") (fun _ => some ⟨"default", "white"⟩)).status = 200 ∧
    (handleLivePreviewRequest "/live" regV.diagrams "/api" 3737
        (fun _ => some "<svg/>") (fun _ => some ⟨"default", "white"⟩)).status = 200 :=
  ⟨rfl, rfl, rfl, rfl⟩

/-- C6 (amended): reserved routes take precedence over session-ID
interpretation on every path they match — any `/view/...` path goes to
the view handler and any `/api/diagrams...` path to the API handler,
never to the live-preview fallback — but the reserved matchers are the
prefix `/view/` and the prefix `/api/diagrams`, so the bare `/view` and
`/api` fall through to the live-preview fallback and a session named
`"view"` or `"api"` is reachable there. -/
theorem reserved_route_precedence :
    (∀ rest : List Char, dispatch ("/view/".data ++ rest) = HandlerTag.view) ∧
    (∀ rest : List Char,
       dispatch ("/api/diagrams".data ++ rest) = HandlerTag.apiDiagramDelete) ∧
    dispatch "/view".data = HandlerTag.livePreview ∧
    dispatch "/api".data = HandlerTag.livePreview := by
  refine ⟨?_, ?_, rfl, rfl⟩
  · intro rest
    have h : "/view/".data = ['/', 'v', 'i', 'e', 'w', '/'] := rfl
    rw [h]
    simp [dispatch, matchRoute, ROUTE_CONFIG, routeMatches, List.find?, startsWithL,
      String.data]
  · intro rest
    have h : "/api/diagrams".data =
        ['/', 'a', 'p', 'i', '/', 'd', 'i', 'a', 'g', 'r', 'a', 'm', 's'] := rfl
    rw [h]
    simp [dispatch, matchRoute, ROUTE_CONFIG, routeMatches, List.find?, startsWithL,
      String.data]

end CMermaid
